import Mathlib

/-!
Shallow embedding of the core of a small Redis-like server
(files src/store.rs, src/cmd.rs of the repository).

Modelling conventions:
  - `tokio::time::Instant` is modelled as a `Nat` timestamp; every operation
    that calls `Instant::now()` in the source takes the current time `now`
    as an explicit parameter.
  - `HashMap<String, Entry>` is modelled as the function `String → Option Entry`;
    `insert` and `remove` update the function at one key, exactly the
    observable behaviour of the map.
  - Fallible paths are explicit: a Rust `panic!` or a panicking `unwrap()` /
    out-of-bounds slice is a dedicated result value, never a Lean error.
  - The decoder scans a `List Char`; the source iterates `chars()` while
    indexing bytes, which coincide on ASCII input (all protocol framing
    characters and the inputs considered here are ASCII).
-/

namespace Redis

/-! ### Store (src/store.rs) -/

/-- Entry of the store: a value together with an optional absolute expiry
instant (src/store.rs, `struct Entry`). -/
structure Entry where
  value : String
  expiry : Option Nat
deriving DecidableEq

/-- The key-value store: a map from key to `Entry` (src/store.rs, `struct Store`). -/
structure Store where
  data : String → Option Entry

/-- Model of `Store::new`. -/
def Store.new : Store := ⟨fun _ => none⟩

/-- Model of `Store::set`: unconditional insert with no expiry. -/
def Store.set (s : Store) (key value : String) : Store :=
  ⟨fun k => if k = key then some ⟨value, none⟩ else s.data k⟩

/-- Model of `Store::set_px`: unconditional insert with expiry
`Instant::now() + Duration::from_millis(px)`, i.e. `now + px`. -/
def Store.set_px (now : Nat) (s : Store) (key value : String) (px : Nat) : Store :=
  ⟨fun k => if k = key then some ⟨value, some (now + px)⟩ else s.data k⟩

/-- Model of `HashMap::remove` specialised to the store, as used inside
`Store::get`. -/
def Store.remove (s : Store) (key : String) : Store :=
  ⟨fun k => if k = key then none else s.data k⟩

/-- Model of `Store::get`: returns the value if present and not expired;
if `Instant::now() > expiry` the entry is removed and `None` is returned.
The mutated store is returned as the second component. -/
def Store.get (now : Nat) (s : Store) (key : String) : Option String × Store :=
  match s.data key with
  | some entry =>
    match entry.expiry with
    | some expiry =>
      if expiry < now then (none, s.remove key)
      else (some entry.value, s)
    | none => (some entry.value, s)
  | none => (none, s)

/-! ### Integer parsing (model of Rust `str::parse`) -/

/-- Digits-only parse of a character list: `none` on an empty list or any
non-digit character, as in Rust integer parsing after the optional sign. -/
def digitsToNat (cs : List Char) : Option Nat :=
  match cs with
  | [] => none
  | _ =>
    cs.foldl
      (fun acc c =>
        acc.bind fun a => if c.isDigit then some (a * 10 + (c.toNat - 48)) else none)
      (some 0)

/-- Model of `str::parse::<i64>()`: optional sign, at least one digit,
within the i64 range. -/
def parseI64 (s : String) : Option Int :=
  match s.data with
  | [] => none
  | '+' :: rest =>
    (digitsToNat rest).bind fun n =>
      if n ≤ 2 ^ 63 - 1 then some (n : Int) else none
  | '-' :: rest =>
    (digitsToNat rest).bind fun n =>
      if n ≤ 2 ^ 63 then some (-(n : Int)) else none
  | cs =>
    (digitsToNat cs).bind fun n =>
      if n ≤ 2 ^ 63 - 1 then some (n : Int) else none

/-- Model of `str::parse::<u64>()`: optional leading plus sign, at least one
digit, below 2^64. -/
def parseU64 (s : String) : Option Nat :=
  match s.data with
  | [] => none
  | '+' :: rest =>
    (digitsToNat rest).bind fun n => if n < 2 ^ 64 then some n else none
  | cs =>
    (digitsToNat cs).bind fun n => if n < 2 ^ 64 then some n else none

/-- Model of Rust `as usize` applied to an i64 value: two's-complement wrap
into the unsigned 64-bit range. -/
def asUsize (i : Int) : Nat := (i % (2 : Int) ^ 64).toNat

/-! ### Decoder (src/cmd.rs `deserialize_command_into_array`;
src/utils.rs `deserialize_array_command` is line-for-line identical) -/

/-- Result of the decoder. `ok` models `Some(vec)`, `nothing` models the
Rust `None` return, `panicked` models a Rust panic (out-of-bounds slice).
`outOfFuel` is an artifact of the fuel-based recursion; the top-level entry
point supplies `length + 1` fuel while every loop iteration advances the
index by at least one, so it is never returned by
`deserialize_command_into_array`. -/
inductive DResult where
  | ok : List (Option String) → DResult
  | nothing : DResult
  | panicked : DResult
  | outOfFuel : DResult
deriving DecidableEq

/-- The mutable locals of the decoding loop in `deserialize_command_into_array`. -/
structure DecoderState where
  cmd_array : List (Option String)
  parsing_array_len : Bool
  parsing_array_content : Bool
  parsing_bulk_string_len : Bool
  array_lower_bound : Nat
  array_prefix_len : Int
  bulk_string_prefix_len : Int
  bulk_string_len_lower_bound : Nat

/-- Model of the Rust byte-slice `&cmd[lo..hi]` (on ASCII input, a char
slice), as a String. -/
def sliceStr (cmd : List Char) (lo hi : Nat) : String :=
  String.mk ((cmd.drop lo).take (hi - lo))

/-- The `while cur_idx < cmd_len` loop of `deserialize_command_into_array`,
with the loop locals in `s`. Each arm mirrors the corresponding `match`
arm of the source; the carriage-return arm also skips the following
line-feed (index advances by 2). The out-of-bounds content slice is the
`panicked` result. -/
def decodeLoop (cmd : List Char) : Nat → Nat → DecoderState → DResult
  | 0, _, _ => DResult.outOfFuel
  | fuel + 1, cur_idx, s =>
    if h : cur_idx < cmd.length then
      let cur_char := cmd.get ⟨cur_idx, h⟩
      if cur_char = '*' then
        decodeLoop cmd fuel (cur_idx + 1)
          { s with parsing_array_len := true, array_lower_bound := cur_idx + 1 }
      else if cur_char = '\r' then
        if s.array_prefix_len = 0 then DResult.ok s.cmd_array
        else if s.parsing_array_len then
          match parseI64 (sliceStr cmd s.array_lower_bound cur_idx) with
          | some val =>
            if val = -1 then DResult.nothing
            else
              decodeLoop cmd fuel (cur_idx + 2)
                { s with array_prefix_len := val, parsing_array_len := false }
          | none =>
            decodeLoop cmd fuel (cur_idx + 2) { s with parsing_array_len := false }
        else if s.parsing_bulk_string_len then
          match parseI64 (sliceStr cmd s.bulk_string_len_lower_bound cur_idx) with
          | some val =>
            decodeLoop cmd fuel (cur_idx + 2)
              { s with bulk_string_prefix_len := val, parsing_bulk_string_len := false,
                       parsing_array_content := true }
          | none =>
            decodeLoop cmd fuel (cur_idx + 2)
              { s with parsing_bulk_string_len := false, parsing_array_content := true }
        else decodeLoop cmd fuel (cur_idx + 2) s
      else if cur_char = '$' then
        decodeLoop cmd fuel (cur_idx + 1)
          { s with bulk_string_len_lower_bound := cur_idx + 1,
                   parsing_bulk_string_len := true }
      else
        if s.parsing_array_content then
          if s.bulk_string_prefix_len = -1 then
            decodeLoop cmd fuel (cur_idx + 1)
              { s with cmd_array := s.cmd_array ++ [none] }
          else
            let n := asUsize s.bulk_string_prefix_len
            if cur_idx + n ≤ cmd.length then
              decodeLoop cmd fuel (cur_idx + n + 1)
                { s with
                    cmd_array := s.cmd_array ++ [some (sliceStr cmd cur_idx (cur_idx + n))],
                    parsing_array_content := false }
            else DResult.panicked
        else decodeLoop cmd fuel (cur_idx + 1) s
    else DResult.ok s.cmd_array

/-- Model of `deserialize_command_into_array` (src/cmd.rs): empty input
returns `None`; otherwise the scanning loop runs from index 0 with the
initial loop locals of the source. -/
def deserialize_command_into_array (cmd : String) : DResult :=
  if cmd.data.length = 0 then DResult.nothing
  else
    decodeLoop cmd.data (cmd.data.length + 1) 0
      { cmd_array := []
        parsing_array_len := false
        parsing_array_content := false
        parsing_bulk_string_len := false
        array_lower_bound := 0
        array_prefix_len := -1
        bulk_string_prefix_len := -1
        bulk_string_len_lower_bound := 0 }

/-- Model of `deserialize_array_command` (src/utils.rs), whose body is
line-for-line identical to `deserialize_command_into_array` in src/cmd.rs. -/
def deserialize_array_command (cmd : String) : DResult :=
  deserialize_command_into_array cmd

/-! ### Command model (src/cmd.rs `Command`, `parse_cmd`) -/

/-- Model of `struct Command` (src/cmd.rs). -/
structure Command where
  cmd : String
  args : List String
deriving DecidableEq

/-- The argument loop of `parse_cmd`: each token is `unwrap()`-ed, so a null
token is a panic (`none`). -/
def unwrapTokens : List (Option String) → Option (List String)
  | [] => some []
  | some a :: rest => (unwrapTokens rest).map fun l => a :: l
  | none :: _ => none

/-- Model of `parse_cmd` (src/cmd.rs). A `none` result models a Rust panic:
the explicit `panic!("Command is null")` on an empty token sequence, the
`unwrap()` on a null first token, or the `unwrap()` on a null argument
token. -/
def parse_cmd (cmd_array : List (Option String)) : Option Command :=
  match cmd_array.get? 0 with
  | some (some cmd_str) =>
    (unwrapTokens (cmd_array.drop 1)).map fun args => { cmd := cmd_str, args := args }
  | some none => none
  | none => none

/-! ### Reply values and command engine (src/cmd.rs) -/

/-- Model of `char::to_ascii_uppercase`: uppercase ASCII letters only. -/
def asciiUpperChar (c : Char) : Char :=
  if 'a' ≤ c ∧ c ≤ 'z' then Char.ofNat (c.toNat - 32) else c

/-- Model of `str::to_ascii_uppercase` (src/cmd.rs uses it for command
dispatch): map `asciiUpperChar` over the characters. -/
def toAsciiUppercase (s : String) : String :=
  String.mk (s.data.map asciiUpperChar)

/-- Model of `enum RespValue` (src/cmd.rs). -/
inductive RespValue where
  | simpleString : String → RespValue
  | bulkString : String → RespValue
  | error : String → RespValue
deriving DecidableEq

/-- Model of `RespValue::encode` (src/cmd.rs). -/
def RespValue.encode : RespValue → String
  | RespValue.simpleString val => "+" ++ val ++ "\r\n"
  | RespValue.bulkString val => "$" ++ val ++ "\r\n"
  | RespValue.error msg => "-" ++ msg ++ "\r\n"

/-- Model of `handle_command_response` (src/cmd.rs). The store behind the
`Arc<Mutex<_>>` is passed and returned explicitly; `now` is the timestamp
at which any `Instant::now()` inside the store calls is taken. A `none`
result models a Rust panic: the `unwrap()` on `expiry.parse::<u64>()`
failing when the SET expiry argument is not an unsigned integer. -/
def handle_command_response (now : Nat) (command : Command) (client_store : Store) :
    Option (String × Store) :=
  let cmd := command.cmd
  match toAsciiUppercase cmd with
  | "PING" => some ((RespValue.simpleString "PONG").encode, client_store)
  | "ECHO" =>
    let args := command.args
    match args.get? 0 with
    | some echo_arg => some ((RespValue.simpleString echo_arg).encode, client_store)
    | none => some ((RespValue.simpleString "").encode, client_store)
  | "SET" =>
    let args := command.args
    match args.get? 0, args.get? 1 with
    | some key, some value =>
      match args.get? 2, args.get? 3 with
      | some _, some expiry =>
        match parseU64 expiry with
        | some px =>
          some ((RespValue.simpleString "OK").encode, Store.set_px now client_store key value px)
        | none => none
      | _, _ => some ((RespValue.simpleString "OK").encode, Store.set client_store key value)
    | _, _ =>
      some ((RespValue.error "SET requires exactly two arguments").encode, client_store)
  | "GET" =>
    let args := command.args
    match args.get? 0 with
    | some key =>
      let r := Store.get now client_store key
      match r.1 with
      | some value => some ((RespValue.simpleString value).encode, r.2)
      | none => some ((RespValue.bulkString "-1").encode, r.2)
    | none => some ((RespValue.error "GET requires exactly one argument").encode, client_store)
  | _ => some ((RespValue.error ("ERR unknown command '" ++ cmd ++ "'")).encode, client_store)

end Redis

namespace Redis

/-! ### Sanity checks: the repository's own unit tests
(cmd_tests / utils_tests in src/cmd.rs and src/utils.rs) -/

/-- The repository test `test_deserialize_array_command_successfully`. -/
theorem decode_test_ping_pong :
    deserialize_command_into_array "*2\r\n$4\r\nPING\r\n$4\r\nPONG\r\n"
      = DResult.ok [some "PING", some "PONG"] := by decide

/-- The second input of the repository test
`test_deserialize_array_2_commands_successfully`. -/
theorem decode_test_single_ping :
    deserialize_command_into_array "*1\r\n$4\r\nPING\r\n" = DResult.ok [some "PING"] := by
  decide

/-! ### Claim theorems -/

/-- Dispatch lemma: a one-argument GET reduces to a lookup through
`Store.get`, returning the mutated store. Holds definitionally. -/
theorem handle_get_single (now : Nat) (k : String) (s : Store) :
    handle_command_response now ⟨"GET", [k]⟩ s
      = match (Store.get now s k).1 with
        | some value =>
          Option.some ((RespValue.simpleString value).encode, (Store.get now s k).2)
        | none =>
          Option.some ((RespValue.bulkString "-1").encode, (Store.get now s k).2) := rfl

/-- C1: for every key present in the store, `Store.get` returns the stored
value (and leaves the store untouched) when the entry has no expiry or the
current time has not passed the expiry; when the expiry has passed it
removes the entry and returns `none`; `set` and `set_px` never purge a
present key, and after `set_px` with ttl `ttl` followed by a `get` more
than `ttl` later the key is absent and removed. -/
theorem store_get_lazy_expiry (s : Store) (k : String) (now : Nat) (e : Entry)
    (h : s.data k = some e) :
    (e.expiry = none → Store.get now s k = (some e.value, s))
    ∧ (∀ t, e.expiry = some t → now ≤ t → Store.get now s k = (some e.value, s))
    ∧ (∀ t, e.expiry = some t → t < now →
        (Store.get now s k).1 = none ∧ ((Store.get now s k).2).data k = none)
    ∧ (∀ k2 v2, (Store.set s k2 v2).data k ≠ none)
    ∧ (∀ k2 v2 px, (Store.set_px now s k2 v2 px).data k ≠ none)
    ∧ (∀ v ttl t2, now + ttl < t2 →
        (Store.get t2 (Store.set_px now s k v ttl) k).1 = none
        ∧ ((Store.get t2 (Store.set_px now s k v ttl) k).2).data k = none) := by
  refine ⟨?_, ?_, ?_, ?_, ?_, ?_⟩
  · intro hx
    simp [Store.get, h, hx]
  · intro t hx hle
    simp [Store.get, h, hx, Nat.not_lt.mpr hle]
  · intro t hx hlt
    constructor
    · simp [Store.get, h, hx, hlt]
    · simp [Store.get, Store.remove, h, hx, hlt]
  · intro k2 v2
    simp only [Store.set]
    split
    · simp
    · simp [h]
  · intro k2 v2 px
    simp only [Store.set_px]
    split
    · simp
    · simp [h]
  · intro v ttl t2 hlt
    constructor
    · simp [Store.get, Store.set_px, hlt]
    · simp [Store.get, Store.set_px, Store.remove, hlt]

/-- Witness for C1: on a concrete store holding key "a" without expiry,
`Store.get` returns the value and leaves the store unchanged. -/
theorem store_get_lazy_expiry_witness :
    Store.get 0 (Store.set Store.new "a" "b") "a"
      = (some "b", Store.set Store.new "a" "b") :=
  (store_get_lazy_expiry (Store.set Store.new "a" "b") "a" 0 ⟨"b", none⟩ (by decide)).1 rfl

/-- C2 (code evaluated at the failing input): on the buffer
`*x\r\n$4\r\nPING\r\n`, whose array-length prefix `x` does not parse as an
integer, the decoder does not surface any error: it continues scanning with
the stale length state and returns a successfully decoded array. -/
theorem decode_malformed_length_swallowed :
    deserialize_command_into_array "*x\r\n$4\r\nPING\r\n" = DResult.ok [some "PING"] := by
  decide

/-- C3 (code evaluated at the failing inputs): building a `Command` from a
token sequence whose first token is null, or whose argument token is null,
is a Rust panic (the `unwrap()` calls in `parse_cmd`), modelled as `none` -
not a recoverable protocol error. -/
theorem parse_cmd_panics_on_null_tokens :
    parse_cmd [Option.none] = Option.none
    ∧ parse_cmd [some "ECHO", Option.none] = Option.none := ⟨rfl, rfl⟩

/-- C4 (code evaluated at the failing input): a 4-argument SET whose 4th
argument does not parse as an unsigned integer panics (the `unwrap()` on
`expiry.parse::<u64>()`), modelled as `none` - no error reply is produced. -/
theorem set_px_nonint_arg_panics :
    handle_command_response 0 ⟨"SET", ["k", "v", "PX", "abc"]⟩ Store.new = Option.none := rfl

/-- C5 (code evaluated at the failing input): on the buffer
`*1\r\n$10\r\nab\r\n`, whose bulk-string length 10 exceeds the remaining
bytes, the decoder takes the out-of-bounds slice branch and panics - it
does not return a defined error value. -/
theorem decode_truncated_bulk_panics :
    deserialize_command_into_array "*1\r\n$10\r\nab\r\n" = DResult.panicked := by decide

/-- C6: executing SET k v PX 0 at time t1 and then GET k at any strictly
later time t2 replies with the null reply `$-1\r\n` - the zero-millisecond
TTL entry is observed as absent as soon as the clock has advanced (the
expiry check in `Store::get` is the strict comparison `now > expiry`). -/
theorem set_px_zero_then_get_null (k v : String) (s : Store) (t1 t2 : Nat)
    (h : t1 < t2) :
    ∃ s1 : Store,
      handle_command_response t1 ⟨"SET", [k, v, "PX", "0"]⟩ s
          = Option.some ((RespValue.simpleString "OK").encode, s1)
      ∧ (handle_command_response t2 ⟨"GET", [k]⟩ s1).map Prod.fst
          = Option.some ((RespValue.bulkString "-1").encode) := by
  refine ⟨Store.set_px t1 s k v 0, rfl, ?_⟩
  rw [handle_get_single]
  simp [Store.get, Store.set_px, h]

/-- Witness for C6: SET a b PX 0 at time 0 then GET a at time 1 yields the
null reply. -/
theorem set_px_zero_then_get_null_witness :
    ∃ s1 : Store,
      handle_command_response 0 ⟨"SET", ["a", "b", "PX", "0"]⟩ Store.new
          = Option.some ((RespValue.simpleString "OK").encode, s1)
      ∧ (handle_command_response 1 ⟨"GET", ["a"]⟩ s1).map Prod.fst
          = Option.some ((RespValue.bulkString "-1").encode) :=
  set_px_zero_then_get_null "a" "b" Store.new 0 1 (by decide)

/-- C7 counterexample: a SET with three arguments (neither 2 nor 4) does
not produce the arity error: it replies `+OK\r\n` and stores the first two
arguments as a plain (no-expiry) entry. -/
theorem set_three_args_succeeds_counterexample :
    (handle_command_response 0 ⟨"SET", ["k", "v", "x"]⟩ Store.new).map
        (fun r => (r.1, r.2.data "k"))
      = Option.some ((RespValue.simpleString "OK").encode,
          some { value := "v", expiry := none }) := by decide

/-- Dispatch lemma: a two-argument SET performs a plain set. Holds
definitionally. -/
theorem handle_set_two_args (now : Nat) (a b : String) (s : Store) :
    handle_command_response now ⟨"SET", [a, b]⟩ s
      = Option.some ((RespValue.simpleString "OK").encode, Store.set s a b) := rfl

/-- Dispatch lemma: a three-argument SET still performs a plain set of the
first two arguments (the source only checks `args.get(0)` and
`args.get(1)`, and `args.get(3)` is `None`). Holds definitionally. -/
theorem handle_set_three_args (now : Nat) (a b c : String) (s : Store) :
    handle_command_response now ⟨"SET", [a, b, c]⟩ s
      = Option.some ((RespValue.simpleString "OK").encode, Store.set s a b) := rfl

/-- Dispatch lemma: a SET with four or more arguments takes the expiry path
on the 4th argument, panicking (`none`) when it does not parse as a u64.
Holds definitionally. -/
theorem handle_set_four_or_more_args (now : Nat) (a b c d : String) (rest : List String)
    (s : Store) :
    handle_command_response now ⟨"SET", a :: b :: c :: d :: rest⟩ s
      = match parseU64 d with
        | some px =>
          Option.some ((RespValue.simpleString "OK").encode, Store.set_px now s a b px)
        | none => Option.none := rfl

/-- C7 amended: a SET produces the error reply
`SET requires exactly two arguments` (leaving the store unchanged) exactly
when fewer than two arguments are supplied; with two or more arguments the
reply, when one is produced at all, is never this arity error. -/
theorem set_arity_error_characterization (now : Nat) (args : List String) (s : Store) :
    (args.length < 2 →
      handle_command_response now ⟨"SET", args⟩ s
        = Option.some ((RespValue.error "SET requires exactly two arguments").encode, s))
    ∧ (2 ≤ args.length →
      (handle_command_response now ⟨"SET", args⟩ s).map Prod.fst
        ≠ Option.some ((RespValue.error "SET requires exactly two arguments").encode)) := by
  constructor
  · intro h
    cases args with
    | nil => rfl
    | cons a t =>
      cases t with
      | nil => rfl
      | cons b t2 =>
        simp only [List.length_cons] at h
        omega
  · intro hge
    cases args with
    | nil => simp at hge
    | cons a t =>
      cases t with
      | nil => simp at hge
      | cons b t2 =>
        cases t2 with
        | nil =>
          rw [handle_set_two_args]
          simp [RespValue.encode]
        | cons c t3 =>
          cases t3 with
          | nil =>
            rw [handle_set_three_args]
            simp [RespValue.encode]
          | cons d rest =>
            rw [handle_set_four_or_more_args]
            cases hpx : parseU64 d with
            | some px => simp [RespValue.encode]
            | none => simp

/-- Witness for the amended C7: a SET with no arguments yields the arity
error with the store unchanged, and a three-argument SET does not yield
the arity error. -/
theorem set_arity_error_characterization_witness :
    handle_command_response 0 ⟨"SET", []⟩ Store.new
        = Option.some ((RespValue.error "SET requires exactly two arguments").encode,
            Store.new)
    ∧ (handle_command_response 0 ⟨"SET", ["k", "v", "x"]⟩ Store.new).map Prod.fst
        ≠ Option.some ((RespValue.error "SET requires exactly two arguments").encode) :=
  ⟨(set_arity_error_characterization 0 [] Store.new).1 (by decide),
   (set_arity_error_characterization 0 ["k", "v", "x"] Store.new).2 (by decide)⟩

/-- C8: for every key and value, SET k v followed by GET k replies `+OK`
then the simple-status reply `+v\r\n`, the stored entry has its expiry
cleared, and the GET leaves the store unchanged. -/
theorem set_then_get_roundtrip (k v : String) (s : Store) (t1 t2 : Nat) :
    ∃ s1 : Store,
      handle_command_response t1 ⟨"SET", [k, v]⟩ s
          = Option.some ((RespValue.simpleString "OK").encode, s1)
      ∧ s1.data k = some ⟨v, none⟩
      ∧ handle_command_response t2 ⟨"GET", [k]⟩ s1
          = Option.some ((RespValue.simpleString v).encode, s1) := by
  refine ⟨Store.set s k v, rfl, by simp [Store.set], ?_⟩
  rw [handle_get_single]
  simp [Store.get, Store.set]

/-- C9 counterexample: decoding the empty buffer and decoding the `*-1`
null-array prefix produce the very same result, so the empty-input outcome
is not distinct from the null-array outcome. -/
theorem empty_input_equals_null_array_counterexample :
    deserialize_command_into_array "" = deserialize_command_into_array "*-1\r\n" := by
  decide

/-- C9 amended: decoding an empty input buffer yields the `None`
(no-command) result, the same outcome as the `*-1` null-array prefix, and
that outcome is distinct from a parsed empty array (`Some []`, produced by
`*0\r\n`). -/
theorem empty_input_nothing_distinct_from_empty_array :
    deserialize_command_into_array "" = DResult.nothing
    ∧ deserialize_command_into_array "*-1\r\n" = DResult.nothing
    ∧ deserialize_command_into_array "*0\r\n" = DResult.ok []
    ∧ DResult.nothing ≠ DResult.ok [] := by decide

/-- C10: every store operation on key k - `set`, `set_px` and `get`
(including its expiry-driven removal) - leaves the entry of every other
key k2 unchanged. -/
theorem store_ops_frame (s : Store) (k k2 v : String) (px now : Nat) (h : k2 ≠ k) :
    (Store.set s k v).data k2 = s.data k2
    ∧ (Store.set_px now s k v px).data k2 = s.data k2
    ∧ ((Store.get now s k).2).data k2 = s.data k2 := by
  refine ⟨?_, ?_, ?_⟩
  · simp [Store.set, h]
  · simp [Store.set_px, h]
  · unfold Store.get
    split
    · split
      · split
        · simp [Store.remove, h]
        · rfl
      · rfl
    · rfl

/-- Witness for C10: operations on key "a" leave key "b" unchanged in a
concrete store. -/
theorem store_ops_frame_witness :
    (Store.set Store.new "a" "v").data "b" = Store.new.data "b"
    ∧ (Store.set_px 7 Store.new "a" "v" 5).data "b" = Store.new.data "b"
    ∧ ((Store.get 7 Store.new "a").2).data "b" = Store.new.data "b" :=
  store_ops_frame Store.new "a" "b" "v" 5 7 (by decide)

end Redis
